import Mathlib

/-!
Shallow embedding of the routing/view layer of the lineup-list web application
(`src/routes/pages.ts`), together with proofs of the specification's claims
about it.  The festival catalog, region list and curated main-genre list live
in a constants module that only exposes secrets here; all definitions are
therefore parameterised over those lists, and over the external Redis-backed
fetchers, so every theorem quantifies over the possible configurations.
-/

namespace LineupList

/-! ## Data model -/

/-- A supported festival edition group.  The empty `name` is reserved for the
synthetic region-separator entries injected into the home-page dropdown. -/
structure Festival where
  name : String
  display_name : String
  region : String
  years : List Int
deriving Repr, DecidableEq

/-- A region, used only to inject disabled separator rows into the dropdown. -/
structure Region where
  name : String
  display_name : String
deriving Repr, DecidableEq

/-- An artist as cached in Redis.  `checkedStr` is the selection flag the
customize handler writes in place onto the fetched object. -/
structure SpotifyArtist where
  id : String
  name : String
  combined_genres : List String
  checkedStr : String
deriving Repr, DecidableEq

structure SpotifyTrack where
  id : String
  name : String
deriving Repr, DecidableEq

/-- A lineup day.  Only `number` is inspected by the handlers; the remaining
metadata is carried opaquely for rendering. -/
structure LineupDay where
  number : Int
  display_name : String
deriving Repr, DecidableEq

/-- Generic (selection-state, payload) wrapper used for genres and days. -/
structure StatefulObject (α : Type) where
  state : String
  obj : α
deriving Repr, DecidableEq

/-- Per-visitor session record.  Every field is optional: a Redis hash may
hold any subset of them (`none` models both a missing field and JS
`undefined`/`null`). -/
structure SessionData where
  festivalName : Option String
  festivalDisplayName : Option String
  festivalYear : Option Int
  tracksPerArtist : Option Int
  trackType : Option String
  artistIdsStr : Option String
  trackIdsStr : Option String
  playlistName : Option String
  playlistUrl : Option String
  selectedDaysStr : Option String
  selectedGenresStr : Option String
deriving Repr, DecidableEq

/-! ## Models of the JavaScript primitives the handlers rely on -/

/-- Splitting a character list at every occurrence of `sep`.  Mirrors
`String.prototype.split` with a single-character separator: the empty list
yields one empty piece, and separators at the ends yield empty pieces. -/
def splitChars (sep : Char) : List Char → List (List Char)
  | [] => [[]]
  | c :: cs =>
    let r := splitChars sep cs
    if c = sep then [] :: r
    else
      match r with
      | [] => [[c]]
      | h :: t => (c :: h) :: t

/-- JS `s.split(sep)` for a one-character separator.  In particular
`jsSplit "" ',' = [""]`: splitting the empty string gives a one-element
list holding the empty string, never the empty list. -/
def jsSplit (s : String) (sep : Char) : List String :=
  (splitChars sep s.toList).map (fun cs => String.mk cs)

/-- Leading decimal digits of a character list. -/
def leadingDigits (cs : List Char) : List Char := cs.takeWhile (fun c => c.isDigit)

/-- Numeric value of a list of decimal digits. -/
def digitsVal (cs : List Char) : Nat := cs.foldl (fun acc c => acc * 10 + (c.toNat - 48)) 0

/-- Model of JS `parseInt(s, 10)`: skip leading whitespace, accept an optional
sign, read the longest prefix of decimal digits, ignore the rest; `none`
models the `NaN` result when no digit is found. -/
def jsParseInt (s : String) : Option Int :=
  match s.toList.dropWhile (fun c => c.isWhitespace) with
  | '-' :: rest =>
    let ds := leadingDigits rest
    if ds.isEmpty then none else some (-(digitsVal ds : Int))
  | '+' :: rest =>
    let ds := leadingDigits rest
    if ds.isEmpty then none else some ((digitsVal ds : Int))
  | cs =>
    let ds := leadingDigits cs
    if ds.isEmpty then none else some ((digitsVal ds : Int))

/-- JS truthiness test `!x` for an optional query-parameter string:
`undefined` and the empty string are falsy. -/
def jsFalsyStr : Option String → Bool
  | none => true
  | some s => s.isEmpty

/-- JS strict equality `a === b` between a possibly-undefined session number
and a `parseInt` result.  `none` on the left is `undefined`, `none` on the
right is `NaN`; both compare unequal to everything (including each other:
`undefined === NaN` and `NaN === NaN` are false in JS). -/
def jsNumEq : Option Int → Option Int → Bool
  | some a, some b => a == b
  | _, _ => false

/-- String a number takes when written into a Redis hash; `String(NaN)` is
`"NaN"`. -/
def jsHashNum : Option Int → String
  | some n => toString n
  | none => "NaN"

/-- String a possibly-undefined number takes inside a template literal. -/
def jsTemplateNum : Option Int → String
  | some n => toString n
  | none => "undefined"

/-- JS `years.includes(y)` where `y` may be `NaN` or `undefined` (`none`),
which is a member of no array. -/
def yearsInclude (years : List Int) : Option Int → Bool
  | some y => years.contains y
  | none => false

/-! ## Home page (`router.get "/"`) -/

/-- Model of `String.prototype.localeCompare`: the sign of the comparison of
the two strings, with code-point order standing in for locale order. -/
def localeCompare (a b : String) : Ordering :=
  if a < b then Ordering.lt else if a = b then Ordering.eq else Ordering.gt

/-- The comparator
`x.region.localeCompare(y.region) || x.name.localeCompare(y.name)`:
compare regions first and fall through to names on a tie (`0` is falsy). -/
def festivalCompare (x y : Festival) : Ordering :=
  match localeCompare x.region y.region with
  | Ordering.eq => localeCompare x.name y.name
  | o => o

/-- Whether `x` may come before `y` under the comparator (comparator result ≤ 0). -/
def festivalSortLe (x y : Festival) : Bool :=
  !(festivalCompare x y == Ordering.gt)

/-- The synthetic disabled separator rows: one entry per declared region whose
name occurs as the region of at least one catalog festival (membership in the
`regionCodes` set only depends on which regions occur). -/
def separators (fests : List Festival) (regions : List Region) : List Festival :=
  regions.filterMap (fun r =>
    if (fests.map (fun f => f.region)).contains r.name then
      some { display_name := r.display_name, years := [], name := "", region := r.name }
    else none)

/-- The dropdown list: catalog entries plus separators, sorted by the
region-then-name comparator (a stable sort, as `Array.prototype.sort` is). -/
def sortedFestivals (fests : List Festival) (regions : List Region) : List Festival :=
  (fests ++ separators fests regions).mergeSort festivalSortLe

/-! ## Session store (Redis hash for `sessionData:<uid>`) -/

/-- A Redis hash: a partial map from field names to string values. -/
def RedisHash : Type := String → Option String

/-- Redis `HDEL key f1 ... fn`. -/
def hashDel (h : RedisHash) (fields : List String) : RedisHash :=
  fun k => if fields.contains k then none else h k

/-- Redis `HMSET key kv1 ... kvn`: each listed field is overwritten, later pairs
winning; all other fields keep their values. -/
def hashSetMany (h : RedisHash) (kvs : List (String × String)) : RedisHash :=
  kvs.foldl (fun acc kv => fun k => if k = kv.1 then some kv.2 else acc k) h

/-- The stale fields the customize handler deletes when the session belongs
to a different festival/year, in the order the `hdel` call lists them. -/
def staleSessionFields : List String :=
  ["tracksPerArtist", "artistIdsStr", "trackIdsStr", "trackType", "playlistName",
   "selectedDaysStr", "selectedGenresStr"]

/-- The reset branch of the customize handler: `hdel` of the stale fields
followed by `hmset` of the minimal new session record. -/
def resetAndStore (store : RedisHash) (festivalName festivalDisplayName : String)
    (festivalYear : Option Int) : RedisHash :=
  hashSetMany (hashDel store staleSessionFields)
    [("festivalName", festivalName), ("festivalDisplayName", festivalDisplayName),
     ("festivalYear", jsHashNum festivalYear)]

/-! ## Customize page (`router.get "/customize"`) -/

/-- The checked-state expression used for days, artists and genres alike:
`prev === null || prev.includes(ident) ? "checked" : ""`. -/
def checkedStateStr (prev : Option (List String)) (ident : String) : String :=
  match prev with
  | none => "checked"
  | some sel => if sel.contains ident then "checked" else ""

/-- Insertion-ordered map, as JS `Map`: an association list. -/
def mapHas {α : Type} (m : List (String × α)) (k : String) : Bool :=
  (m.map (fun p => p.1)).contains k

/-- JS `Map.set`: overwrite in place if the key exists, else append. -/
def mapSet {α : Type} (m : List (String × α)) (k : String) (v : α) : List (String × α) :=
  if mapHas m k then m.map (fun p => if p.1 = k then (k, v) else p)
  else m ++ [(k, v)]

/-- The day loop: `daysMap.set(day.number.toString(), {state, obj})` with the
checked state decided against the previously selected day-number strings. -/
def buildDaysMap (prevDays : Option (List String)) (daysWithMetadata : List LineupDay) :
    List (String × StatefulObject LineupDay) :=
  daysWithMetadata.foldl
    (fun m lineupDay =>
      mapSet m (toString lineupDay.number)
        { state := checkedStateStr prevDays (toString lineupDay.number), obj := lineupDay })
    []

abbrev GenreMap := List (String × StatefulObject String)

/-- One step of the genre combining logic: a genre on the curated main list
goes to the main map, anything else to the specific map, in both cases only
if the map does not hold it yet, with the checked state computed at insertion
from the shared previously-selected-genres list. -/
def insertGenres (prevGenres : Option (List String)) (mainGenresList : List String)
    (maps : GenreMap × GenreMap) (genre : String) : GenreMap × GenreMap :=
  if mainGenresList.contains genre then
    if !(mapHas maps.1 genre) then
      (mapSet maps.1 genre { state := checkedStateStr prevGenres genre, obj := genre }, maps.2)
    else maps
  else
    if !(mapHas maps.2 genre) then
      (maps.1, mapSet maps.2 genre { state := checkedStateStr prevGenres genre, obj := genre })
    else maps

/-- The artist/genre loop of the customize handler, restricted to its genre
effect: fold every artist's `combined_genres` into the two maps. -/
def buildGenreMaps (prevGenres : Option (List String)) (mainGenresList : List String)
    (artists : List SpotifyArtist) : GenreMap × GenreMap :=
  artists.foldl
    (fun maps artist => artist.combined_genres.foldl (insertGenres prevGenres mainGenresList) maps)
    ([], [])

/-- The artist effect of the same loop: the checked flag is written in place
onto each artist record. -/
def applyArtistChecked (prevArtists : Option (List String)) (artists : List SpotifyArtist) :
    List SpotifyArtist :=
  artists.map (fun artist => { artist with checkedStr := checkedStateStr prevArtists artist.id })

/-- JS `Array.prototype.sort()` with no comparator on an array of objects: every
element stringifies to "[object Object]", all keys tie, and the sort is
stable, so the order is unchanged. -/
def jsDefaultSortObjects {α : Type} (l : List α) : List α := l

/-- The three mutually exclusive track-type radio flags, decided by the
`if/else if` chain on `sessionData.trackType` (top, setlist, recent, with an
unknown value logged and falling back to the top configuration). -/
def trackTypeChecked (trackType : Option String) : String × String × String :=
  if trackType = some "top" then ("checked", "", "")
  else if trackType = some "setlist" then ("", "checked", "")
  else if trackType = some "recent" then ("", "", "checked")
  else ("checked", "", "")

/-- The request-scoped selection state the customize handler assembles before
building the page. -/
structure CustomizeState where
  tracksPerArtist : Int
  topTracksCheckedStr : String
  setlistTracksCheckedStr : String
  newTracksCheckedStr : String
  previouslySelectedArtists : Option (List String)
  previouslySelectedGenres : Option (List String)
  previouslySelectedDays : Option (List String)
deriving Repr, DecidableEq

/-- State rehydrated from a session that matches the requested festival+year:
`tracksPerArtist` defaults to 3 when NaN/absent, the radio flags follow
`trackType`, and each previously-selected list is the comma-split of its
session string, or null when the field is undefined/null. -/
def customizeStateFromSession (sd : SessionData) : CustomizeState :=
  { tracksPerArtist := match sd.tracksPerArtist with | none => 3 | some n => n
    topTracksCheckedStr := (trackTypeChecked sd.trackType).1
    setlistTracksCheckedStr := (trackTypeChecked sd.trackType).2.1
    newTracksCheckedStr := (trackTypeChecked sd.trackType).2.2
    previouslySelectedArtists := sd.artistIdsStr.map (fun s => jsSplit s ',')
    previouslySelectedGenres := sd.selectedGenresStr.map (fun s => jsSplit s ',')
    previouslySelectedDays := sd.selectedDaysStr.map (fun s => jsSplit s ',') }

/-- State used when the session is absent or belongs to another festival/year:
defaults, with every previously-selected list null. -/
def defaultCustomizeState : CustomizeState :=
  { tracksPerArtist := 3
    topTracksCheckedStr := "checked"
    setlistTracksCheckedStr := ""
    newTracksCheckedStr := ""
    previouslySelectedArtists := none
    previouslySelectedGenres := none
    previouslySelectedDays := none }

/-- Query parameters of `/customize`; a missing parameter is `none`. -/
structure CustomizeQuery where
  festival : Option String
  year : Option String
deriving Repr, DecidableEq

/-- The data handed to the `customize-list` template. -/
structure CustomizeView where
  tracksPerArtist : Int
  topTracksCheckedStr : String
  setlistTracksCheckedStr : String
  newTracksCheckedStr : String
  artists : List SpotifyArtist
  mainGenres : List (StatefulObject String)
  specificGenres : List (StatefulObject String)
  days : List (StatefulObject LineupDay)

/-- Outcome of the customize handler; both constructors carry the session
store as it stands after the handler ran. -/
inductive CustomizeResult where
  | errorResponse (status : Nat) (body : String) (store : RedisHash)
  | rendered (store : RedisHash) (view : CustomizeView)

/-- The session store after the handler ran. -/
def resultStore : CustomizeResult → RedisHash
  | CustomizeResult.errorResponse _ _ store => store
  | CustomizeResult.rendered store _ => store

/-- The condition `sessionData !== null && sessionData.festivalName === festival.name &&
sessionData.festivalYear === queryYear`. -/
def sessionMatchesFestival (session : Option SessionData) (festivalName : String)
    (queryYear : Option Int) : Bool :=
  match session with
  | none => false
  | some sd => (sd.festivalName == some festivalName) && jsNumEq sd.festivalYear queryYear

/-- The `/customize` handler.  Parameters beyond the request: the festival
catalog and curated main-genre list (constants), the loaded session and the
raw session hash (Redis), and the artist and day lists the metadata fetcher
returns for the requested festival. -/
def customize (supportedFestivals : List Festival) (mainGenresList : List String)
    (query : CustomizeQuery) (session : Option SessionData) (store : RedisHash)
    (artists : List SpotifyArtist) (daysWithMetadata : List LineupDay) : CustomizeResult :=
  if jsFalsyStr query.festival || jsFalsyStr query.year then
    CustomizeResult.errorResponse 400 "You need to choose a festival first." store
  else
    let queryYear : Option Int := jsParseInt (query.year.getD "")
    match (supportedFestivals.filter (fun x =>
        (x.name == query.festival.getD "") && yearsInclude x.years queryYear)).head? with
    | none => CustomizeResult.errorResponse 400 "Invalid query params" store
    | some festival =>
      if festival.name.isEmpty then
        CustomizeResult.errorResponse 400 "Invalid query params" store
      else
        let stAndStore : CustomizeState × RedisHash :=
          match session with
          | some sd =>
            if (sd.festivalName == some festival.name) && jsNumEq sd.festivalYear queryYear then
              (customizeStateFromSession sd, store)
            else
              (defaultCustomizeState,
               resetAndStore store festival.name festival.display_name queryYear)
          | none =>
            (defaultCustomizeState,
             resetAndStore store festival.name festival.display_name queryYear)
        let st := stAndStore.1
        let daysMap := buildDaysMap st.previouslySelectedDays daysWithMetadata
        let maps := buildGenreMaps st.previouslySelectedGenres mainGenresList artists
        CustomizeResult.rendered stAndStore.2
          { tracksPerArtist := st.tracksPerArtist
            topTracksCheckedStr := st.topTracksCheckedStr
            setlistTracksCheckedStr := st.setlistTracksCheckedStr
            newTracksCheckedStr := st.newTracksCheckedStr
            artists := applyArtistChecked st.previouslySelectedArtists artists
            mainGenres := jsDefaultSortObjects (maps.1.map (fun p => p.2))
            specificGenres := jsDefaultSortObjects (maps.2.map (fun p => p.2))
            days := jsDefaultSortObjects (daysMap.map (fun p => p.2)) }

/-! ## Personalized lineup page (`router.get "/personalized-lineup"`) -/

/-- The three per-artist track fetchers of the Redis helper, abstracted:
each takes the artist and `sessionData.tracksPerArtist` (possibly undefined). -/
structure Fetchers where
  getNewestTracksForArtist : SpotifyArtist → Option Int → List SpotifyTrack
  getTopTracksForArtist : SpotifyArtist → Option Int → List SpotifyTrack
  getSetlistTracksForArtist : SpotifyArtist → Option Int → List SpotifyTrack

/-- The per-artist `trackType` dispatch: recent, top and setlist route to
their fetchers; anything else logs a warning (the returned flag) and falls
back to the top-tracks fetcher. -/
def fetchTracksForArtist (F : Fetchers) (trackType : Option String)
    (tracksPerArtist : Option Int) (artist : SpotifyArtist) : List SpotifyTrack × Bool :=
  if trackType = some "recent" then (F.getNewestTracksForArtist artist tracksPerArtist, false)
  else if trackType = some "top" then (F.getTopTracksForArtist artist tracksPerArtist, false)
  else if trackType = some "setlist" then (F.getSetlistTracksForArtist artist tracksPerArtist, false)
  else (F.getTopTracksForArtist artist tracksPerArtist, true)

/-- One iteration of the sequential per-artist loop: push `{...artist, tracks}`
onto the acts list and, when the fetched list is non-empty, append its track
IDs to the running `trackIds`. -/
def resolveStep (F : Fetchers) (trackType : Option String) (tracksPerArtist : Option Int)
    (acc : List (SpotifyArtist × List SpotifyTrack) × List String) (artist : SpotifyArtist) :
    List (SpotifyArtist × List SpotifyTrack) × List String :=
  let tracksForArtist := (fetchTracksForArtist F trackType tracksPerArtist artist).1
  (acc.1 ++ [(artist, tracksForArtist)],
   if tracksForArtist.length > 0 then acc.2 ++ tracksForArtist.map (fun x => x.id)
   else acc.2)

/-- The sequential per-artist loop over the filtered artists. -/
def resolveLoop (F : Fetchers) (trackType : Option String) (tracksPerArtist : Option Int)
    (filteredArtists : List SpotifyArtist) :
    List (SpotifyArtist × List SpotifyTrack) × List String :=
  filteredArtists.foldl (resolveStep F trackType tracksPerArtist) ([], [])

/-- The filter of the festival artists against the comma-split of
`artistIdsStr` (the split list is never empty, so the filter branch is always
the one taken). -/
def filteredArtistsOf (artistsForFestival : List SpotifyArtist) (artistIdsStr : String) :
    List SpotifyArtist :=
  let chosenArtistIds := jsSplit artistIdsStr ','
  if chosenArtistIds.length > 0 then
    artistsForFestival.filter (fun x => chosenArtistIds.contains x.id)
  else []

/-- Outcome of the lineup handler.  `fault` models an uncaught JS `TypeError`
(framework-level 500); `rendered` carries the session record as written back
by `hmset` and the acts handed to the template. -/
inductive LineupOutcome where
  | errorResponse (status : Nat) (body : String)
  | fault (reason : String)
  | rendered (writtenSession : SessionData) (acts : List (SpotifyArtist × List SpotifyTrack))
deriving DecidableEq

/-- The `/personalized-lineup` handler.  `artistsForFestival` is what the
Redis helper returns for the session's festival. -/
def personalizedLineup (F : Fetchers) (artistsForFestival : List SpotifyArtist)
    (session : Option SessionData) : LineupOutcome :=
  match session with
  | none =>
    LineupOutcome.errorResponse 400
      "This url only accessible after generating a lineup from the customize page."
  | some sessionData =>
    match sessionData.artistIdsStr with
    | none => LineupOutcome.fault "TypeError: sessionData.artistIdsStr is undefined"
    | some artistIdsStr =>
      let filteredArtists := filteredArtistsOf artistsForFestival artistIdsStr
      let r := resolveLoop F sessionData.trackType sessionData.tracksPerArtist filteredArtists
      LineupOutcome.rendered
        { sessionData with trackIdsStr := some (String.intercalate "," r.2) } r.1

/-- Discriminator: did the lineup handler reach the render step? -/
def LineupOutcome.isRendered : LineupOutcome → Bool
  | LineupOutcome.rendered _ _ => true
  | _ => false

/-! ## Success page (`router.get "/generate-playlist-success"`) -/

/-- Outcome of the success handler; `fault` models the uncaught `TypeError`
thrown by reading `display_name` off an undefined lookup result. -/
inductive SuccessOutcome where
  | errorResponse (status : Nat) (body : String)
  | fault (reason : String)
  | rendered (titleOverride : String) (festival : Festival) (festivalYear : Option Int)
      (playlistName playlistUrl : Option String)
deriving DecidableEq

/-- The `/generate-playlist-success` handler. -/
def generatePlaylistSuccess (supportedFestivals : List Festival)
    (session : Option SessionData) : SuccessOutcome :=
  match session with
  | none =>
    SuccessOutcome.errorResponse 403 "This url only accessible after generating Spotify playlist."
  | some sessionData =>
    match (supportedFestivals.filter (fun x =>
        (sessionData.festivalName == some x.name) &&
        yearsInclude x.years sessionData.festivalYear)).head? with
    | none => SuccessOutcome.fault "TypeError: festival is undefined"
    | some festival =>
      SuccessOutcome.rendered
        (festival.display_name ++ " " ++ jsTemplateNum sessionData.festivalYear ++
          " Playlist Success")
        festival sessionData.festivalYear sessionData.playlistName sessionData.playlistUrl

/-! ## Concrete fixtures used to instantiate theorems with hypotheses -/

/-- A session record with every field absent. -/
def emptySession : SessionData :=
  { festivalName := none, festivalDisplayName := none, festivalYear := none,
    tracksPerArtist := none, trackType := none, artistIdsStr := none, trackIdsStr := none,
    playlistName := none, playlistUrl := none, selectedDaysStr := none,
    selectedGenresStr := none }

def sampleTrack : SpotifyTrack := { id := "t1", name := "Track One" }

def sampleArtist : SpotifyArtist :=
  { id := "a1", name := "Artist One", combined_genres := ["rock", "stoner rock"],
    checkedStr := "" }

/-- Fetchers whose top-tracks strategy returns one track and whose other
strategies return none, so the chosen strategy is observable. -/
def sampleFetchers : Fetchers :=
  { getNewestTracksForArtist := fun _ _ => []
    getTopTracksForArtist := fun _ _ => [sampleTrack]
    getSetlistTracksForArtist := fun _ _ => [] }

def sampleFestival : Festival :=
  { name := "coachella", display_name := "Coachella", region := "US", years := [2024] }

/-- A store where every field currently holds a value, so deletions show. -/
def sampleStore : RedisHash := fun _ => some "old"

def sampleQuery : CustomizeQuery := { festival := some "coachella", year := some "2024" }

/-! ## Claims -/

/-- C9: with no stored session, `/personalized-lineup` answers 400 with the
exact message and `/generate-playlist-success` answers 403 with a short
message; neither renders a page. -/
theorem c9_missing_session_guards (F : Fetchers) (artistsForFestival : List SpotifyArtist)
    (supportedFestivals : List Festival) :
    personalizedLineup F artistsForFestival none =
      LineupOutcome.errorResponse 400
        "This url only accessible after generating a lineup from the customize page." ∧
    generatePlaylistSuccess supportedFestivals none =
      SuccessOutcome.errorResponse 403
        "This url only accessible after generating Spotify playlist." :=
  ⟨rfl, rfl⟩

/-- C2: the per-artist fetch strategy is selected by `sessionData.trackType`
("recent" → newest, "top" → top, "setlist" → setlist); any other value,
including a missing one, is flagged as a warning and falls back to the top
strategy, and whenever a session with an `artistIdsStr` string is present the
request still reaches the render step rather than failing. -/
theorem c2_trackType_dispatch (F : Fetchers) (trackType : Option String)
    (tracksPerArtist : Option Int) (artist : SpotifyArtist) :
    (trackType = some "recent" →
      fetchTracksForArtist F trackType tracksPerArtist artist =
        (F.getNewestTracksForArtist artist tracksPerArtist, false)) ∧
    (trackType = some "top" →
      fetchTracksForArtist F trackType tracksPerArtist artist =
        (F.getTopTracksForArtist artist tracksPerArtist, false)) ∧
    (trackType = some "setlist" →
      fetchTracksForArtist F trackType tracksPerArtist artist =
        (F.getSetlistTracksForArtist artist tracksPerArtist, false)) ∧
    (trackType ≠ some "recent" → trackType ≠ some "top" → trackType ≠ some "setlist" →
      fetchTracksForArtist F trackType tracksPerArtist artist =
        (F.getTopTracksForArtist artist tracksPerArtist, true)) ∧
    (∀ (artistsForFestival : List SpotifyArtist) (sd : SessionData) (s : String),
      sd.artistIdsStr = some s → sd.trackType = trackType →
      (personalizedLineup F artistsForFestival (some sd)).isRendered = true) := by
  refine ⟨fun h => ?_, fun h => ?_, fun h => ?_, fun h1 h2 h3 => ?_, ?_⟩
  · simp [fetchTracksForArtist, h]
  · simp [fetchTracksForArtist, h]
  · simp [fetchTracksForArtist, h]
  · simp [fetchTracksForArtist, h1, h2, h3]
  · intro artistsForFestival sd s hs _
    simp [personalizedLineup, hs, LineupOutcome.isRendered]

/-- Witness for C2: an unrecognized track type "bogus" falls back to the top
strategy with the warning flag set, and the lineup request still renders. -/
theorem c2_trackType_dispatch_witness :
    fetchTracksForArtist sampleFetchers (some "bogus") none sampleArtist =
      ([sampleTrack], true) ∧
    (personalizedLineup sampleFetchers []
      (some { emptySession with artistIdsStr := some "", trackType := some "bogus" })).isRendered
      = true := by
  have h := c2_trackType_dispatch sampleFetchers (some "bogus") none sampleArtist
  exact ⟨h.2.2.2.1 (by decide) (by decide) (by decide),
         h.2.2.2.2 [] { emptySession with artistIdsStr := some "", trackType := some "bogus" }
           "" rfl rfl⟩

/-- C10: `/generate-playlist-success` renders only when the session's
festival-name/year pair matches a catalog edition; when no edition matches,
the lookup comes back empty and the handler faults (an uncaught `TypeError`
on the undefined lookup result) instead of answering with an error status. -/
theorem c10_success_requires_catalog_match (supportedFestivals : List Festival)
    (sd : SessionData) :
    ((∀ x ∈ supportedFestivals,
        ¬(((sd.festivalName == some x.name) && yearsInclude x.years sd.festivalYear) = true)) →
      generatePlaylistSuccess supportedFestivals (some sd) =
        SuccessOutcome.fault "TypeError: festival is undefined") ∧
    (∀ t f y pn pu,
      generatePlaylistSuccess supportedFestivals (some sd) =
        SuccessOutcome.rendered t f y pn pu →
      f ∈ supportedFestivals ∧
        ((sd.festivalName == some f.name) && yearsInclude f.years sd.festivalYear) = true) := by
  constructor
  · intro h
    have hfil : supportedFestivals.filter (fun x =>
        (sd.festivalName == some x.name) && yearsInclude x.years sd.festivalYear) = [] := by
      rw [List.filter_eq_nil_iff]
      intro a ha
      exact fun hc => h a ha hc
    simp [generatePlaylistSuccess, hfil]
  · intro t f y pn pu h
    simp only [generatePlaylistSuccess] at h
    rcases hh : (supportedFestivals.filter (fun x =>
        (sd.festivalName == some x.name) && yearsInclude x.years sd.festivalYear)).head? with
      _ | fest
    · rw [hh] at h
      simp at h
    · rw [hh] at h
      simp at h
      have hmem : fest ∈ supportedFestivals.filter (fun x =>
          (sd.festivalName == some x.name) && yearsInclude x.years sd.festivalYear) :=
        List.mem_of_mem_head? (by rw [hh]; rfl)
      obtain ⟨hmem', hpred⟩ := List.mem_filter.mp hmem
      exact ⟨h.2.1 ▸ hmem', h.2.1 ▸ hpred⟩

/-- Witness for C10: a session naming an unknown festival makes the success
handler fault. -/
theorem c10_success_requires_catalog_match_witness :
    generatePlaylistSuccess [sampleFestival]
      (some { emptySession with festivalName := some "nope", festivalYear := some 2024 }) =
      SuccessOutcome.fault "TypeError: festival is undefined" :=
  (c10_success_requires_catalog_match [sampleFestival]
    { emptySession with festivalName := some "nope", festivalYear := some 2024 }).1
    (by decide)

/-- C5 counterexample: for a session with `artistIdsStr` absent the claim
predicts an empty chosen list and an empty-join `trackIdsStr`, but the
handler faults (`.split` of `undefined` throws); moreover splitting the
empty string yields the non-empty list `[""]`, not the empty list. -/
theorem c5_empty_artistIds_counterexample :
    personalizedLineup sampleFetchers [sampleArtist] (some emptySession) =
      LineupOutcome.fault "TypeError: sessionData.artistIdsStr is undefined" ∧
    jsSplit "" ',' = [""] := by
  constructor
  · rfl
  · decide

/-- C5 amended: when `artistIdsStr` is the empty string, the split yields the
one-element list `[""]`; provided no festival artist has the empty string as
id the filtered list is nevertheless empty, zero tracks are fetched and
`trackIdsStr` is written as the empty string.  When `artistIdsStr` is absent,
the handler faults instead of producing an empty lineup. -/
theorem c5_empty_artistIds_amended (F : Fetchers) (artistsForFestival : List SpotifyArtist)
    (sd : SessionData) :
    (sd.artistIdsStr = some "" → (∀ a ∈ artistsForFestival, a.id ≠ "") →
      personalizedLineup F artistsForFestival (some sd) =
        LineupOutcome.rendered { sd with trackIdsStr := some "" } []) ∧
    (sd.artistIdsStr = none →
      personalizedLineup F artistsForFestival (some sd) =
        LineupOutcome.fault "TypeError: sessionData.artistIdsStr is undefined") := by
  constructor
  · intro hs hid
    have hchosen : jsSplit "" ',' = [""] := by decide
    have hfil : filteredArtistsOf artistsForFestival "" = [] := by
      simp only [filteredArtistsOf, hchosen]
      rw [if_pos (by decide)]
      rw [List.filter_eq_nil_iff]
      intro a ha hcon
      exact hid a ha (List.mem_singleton.mp (List.elem_iff.mp hcon))
    simp [personalizedLineup, hs, hfil, resolveLoop]
    rfl
  · intro hs
    simp [personalizedLineup, hs]

/-- Witness for C5 amended: one artist with a non-empty id, session
`artistIdsStr = ""`: the handler renders with an empty acts list and writes
the empty `trackIdsStr`. -/
theorem c5_empty_artistIds_amended_witness :
    personalizedLineup sampleFetchers [sampleArtist]
      (some { emptySession with artistIdsStr := some "" }) =
      LineupOutcome.rendered
        { emptySession with artistIdsStr := some "", trackIdsStr := some "" } [] :=
  (c5_empty_artistIds_amended sampleFetchers [sampleArtist]
    { emptySession with artistIdsStr := some "" }).1 rfl (by decide)

/-- The resolver loop, started from any accumulator, appends the per-artist
acts and the per-artist track IDs in artist order. -/
theorem resolveLoop_go (F : Fetchers) (trackType : Option String) (tracksPerArtist : Option Int) :
    ∀ (l : List SpotifyArtist) (acc : List (SpotifyArtist × List SpotifyTrack) × List String),
      l.foldl (resolveStep F trackType tracksPerArtist) acc =
        (acc.1 ++ l.map (fun a => (a, (fetchTracksForArtist F trackType tracksPerArtist a).1)),
         acc.2 ++ l.flatMap
           (fun a => ((fetchTracksForArtist F trackType tracksPerArtist a).1).map
             (fun x => x.id))) := by
  intro l
  induction l with
  | nil => intro acc; simp
  | cons a l ih =>
    intro acc
    rw [List.foldl_cons, ih]
    rcases acc with ⟨acts, ids⟩
    simp only [resolveStep, List.map_cons, List.flatMap_cons]
    rcases hts : (fetchTracksForArtist F trackType tracksPerArtist a).1 with _ | ⟨t, ts⟩
    · simp
    · simp

/-- C3: after resolving, the session's `trackIdsStr` is written as the
comma-join of all fetched track IDs, in artist processing order (the order of
the filtered artist list) and, within an artist, in the order of its fetched
tracks; the acts handed to the template follow the same artist order. -/
theorem c3_trackIdsStr_join (F : Fetchers) (artistsForFestival : List SpotifyArtist)
    (sd : SessionData) (s : String) (hs : sd.artistIdsStr = some s) :
    personalizedLineup F artistsForFestival (some sd) =
      LineupOutcome.rendered
        { sd with trackIdsStr := some (String.intercalate ","
            ((filteredArtistsOf artistsForFestival s).flatMap
              (fun a => ((fetchTracksForArtist F sd.trackType sd.tracksPerArtist a).1).map
                (fun x => x.id)))) }
        ((filteredArtistsOf artistsForFestival s).map
          (fun a => (a, (fetchTracksForArtist F sd.trackType sd.tracksPerArtist a).1))) := by
  simp [personalizedLineup, hs, resolveLoop, resolveLoop_go]

/-- Witness for C3: two chosen artists, top-tracks strategy returning one
track each; `trackIdsStr` becomes `"t1,t1"` in artist order. -/
theorem c3_trackIdsStr_join_witness :
    personalizedLineup sampleFetchers
      [sampleArtist, { sampleArtist with id := "a2" }]
      (some { emptySession with artistIdsStr := some "a1,a2", trackType := some "top" }) =
      LineupOutcome.rendered
        { emptySession with
            artistIdsStr := some "a1,a2"
            trackType := some "top"
            trackIdsStr := some "t1,t1" }
        [(sampleArtist, [sampleTrack]),
         ({ sampleArtist with id := "a2" }, [sampleTrack])] := by
  have h := c3_trackIdsStr_join sampleFetchers
    [sampleArtist, { sampleArtist with id := "a2" }]
    { emptySession with artistIdsStr := some "a1,a2", trackType := some "top" } "a1,a2" rfl
  rw [h]
  decide

/-- C8: a `/customize` request with a missing (or empty, hence falsy)
festival or year parameter, or whose festival+year pair matches no catalog
edition, is answered 400 with a short message and the session store is left
exactly as it was (no delete, no write). -/
theorem c8_customize_validation (supportedFestivals : List Festival)
    (mainGenresList : List String) (query : CustomizeQuery) (session : Option SessionData)
    (store : RedisHash) (artists : List SpotifyArtist) (daysWithMetadata : List LineupDay) :
    ((jsFalsyStr query.festival = true ∨ jsFalsyStr query.year = true) →
      customize supportedFestivals mainGenresList query session store artists daysWithMetadata =
        CustomizeResult.errorResponse 400 "You need to choose a festival first." store) ∧
    (jsFalsyStr query.festival = false → jsFalsyStr query.year = false →
      (∀ x ∈ supportedFestivals,
        ¬(((x.name == query.festival.getD "") &&
            yearsInclude x.years (jsParseInt (query.year.getD ""))) = true)) →
      customize supportedFestivals mainGenresList query session store artists daysWithMetadata =
        CustomizeResult.errorResponse 400 "Invalid query params" store) := by
  constructor
  · intro h
    rcases h with h | h <;> simp [customize, h]
  · intro hq hy hno
    have hfil : supportedFestivals.filter (fun x =>
        (x.name == query.festival.getD "") &&
        yearsInclude x.years (jsParseInt (query.year.getD ""))) = [] := by
      rw [List.filter_eq_nil_iff]
      exact hno
    simp [customize, hq, hy, hfil]

/-- Witness for C8: a request with no festival parameter, and a request for a
festival the catalog does not list; both answer 400 and leave the store
untouched. -/
theorem c8_customize_validation_witness :
    customize [sampleFestival] [] { festival := none, year := some "2024" } none sampleStore
        [] [] =
      CustomizeResult.errorResponse 400 "You need to choose a festival first." sampleStore ∧
    customize [sampleFestival] [] { festival := some "unknown", year := some "2024" } none
        sampleStore [] [] =
      CustomizeResult.errorResponse 400 "Invalid query params" sampleStore :=
  ⟨(c8_customize_validation [sampleFestival] [] { festival := none, year := some "2024" }
      none sampleStore [] []).1 (Or.inl rfl),
   (c8_customize_validation [sampleFestival] [] { festival := some "unknown", year := some "2024" }
      none sampleStore [] []).2 rfl rfl (by decide)⟩

/-- C7: when the session does not match the requested festival+year, the
handler deletes exactly the seven stale fields, then writes only the minimal
record (festivalName, festivalDisplayName, festivalYear); afterwards none of
the stale fields remain, the minimal fields hold the new values, and every
other field is untouched. -/
theorem c7_session_reset (supportedFestivals : List Festival) (mainGenresList : List String)
    (query : CustomizeQuery) (session : Option SessionData) (store : RedisHash)
    (artists : List SpotifyArtist) (daysWithMetadata : List LineupDay) (festival : Festival)
    (hq : jsFalsyStr query.festival = false) (hy : jsFalsyStr query.year = false)
    (hf : (supportedFestivals.filter (fun x =>
        (x.name == query.festival.getD "") &&
        yearsInclude x.years (jsParseInt (query.year.getD "")))).head? = some festival)
    (hn : festival.name.isEmpty = false)
    (hm : sessionMatchesFestival session festival.name (jsParseInt (query.year.getD "")) = false) :
    resultStore (customize supportedFestivals mainGenresList query session store artists
        daysWithMetadata) =
      resetAndStore store festival.name festival.display_name
        (jsParseInt (query.year.getD "")) ∧
    (∀ (st : RedisHash) (n d : String) (y : Option Int),
      (∀ f ∈ staleSessionFields, resetAndStore st n d y f = none) ∧
      resetAndStore st n d y "festivalName" = some n ∧
      resetAndStore st n d y "festivalDisplayName" = some d ∧
      resetAndStore st n d y "festivalYear" = some (jsHashNum y) ∧
      (∀ k, k ∉ staleSessionFields → k ≠ "festivalName" → k ≠ "festivalDisplayName" →
        k ≠ "festivalYear" → resetAndStore st n d y k = st k)) := by
  constructor
  · cases session with
    | none => simp [customize, hq, hy, hf, hn, resultStore]
    | some sd =>
      simp only [sessionMatchesFestival] at hm
      simp [customize, hq, hy, hf, hn, hm, resultStore]
  · intro st n d y
    refine ⟨?_, rfl, rfl, rfl, ?_⟩
    · intro f hf'
      fin_cases hf' <;> rfl
    · intro k hk h1 h2 h3
      simp only [resetAndStore, hashSetMany, List.foldl_cons, List.foldl_nil, hashDel]
      rw [if_neg h3, if_neg h2, if_neg h1, if_neg]
      simp only [staleSessionFields] at hk
      simp [staleSessionFields, List.elem_iff]
      simpa using hk

/-- Witness for C7: after visiting `/customize?festival=coachella&year=2024`
with a mismatched (absent) session, the stale `artistIdsStr` is gone, the new
festival name is stored, and the undeleted `playlistUrl` field is untouched. -/
theorem c7_session_reset_witness :
    resultStore (customize [sampleFestival] [] sampleQuery none sampleStore [] [])
        "artistIdsStr" = none ∧
    resultStore (customize [sampleFestival] [] sampleQuery none sampleStore [] [])
        "festivalName" = some "coachella" ∧
    resultStore (customize [sampleFestival] [] sampleQuery none sampleStore [] [])
        "playlistUrl" = some "old" := by
  have h := c7_session_reset [sampleFestival] [] sampleQuery none sampleStore [] []
    sampleFestival rfl rfl (by decide) rfl rfl
  have h2 := h.2 sampleStore sampleFestival.name sampleFestival.display_name
    (jsParseInt (sampleQuery.year.getD ""))
  refine ⟨?_, ?_, ?_⟩
  · rw [h.1]
    exact h2.1 "artistIdsStr" (by decide)
  · rw [h.1]
    exact h2.2.1
  · rw [h.1]
    exact h2.2.2.2.2 "playlistUrl" (by decide) (by decide) (by decide) (by decide)

/-! ## Invariants of the JS-`Map` association lists -/

/-- A fold preserves any invariant its step preserves. -/
theorem foldl_preserve {α β : Type} (P : β → Prop) (f : β → α → β)
    (hf : ∀ b a, P b → P (f b a)) : ∀ (l : List α) (b : β), P b → P (l.foldl f b) := by
  intro l
  induction l with
  | nil => intro b hb; exact hb
  | cons a l ih => intro b hb; exact ih _ (hf b a hb)

/-- JS `Map.set` preserves a per-entry property as long as the new entry has it. -/
theorem mapSet_inv {α : Type} (P : String × α → Prop) (m : List (String × α)) (k : String)
    (v : α) (hm : ∀ p ∈ m, P p) (hv : P (k, v)) : ∀ p ∈ mapSet m k v, P p := by
  intro p hp
  unfold mapSet at hp
  split at hp
  · rcases List.mem_map.mp hp with ⟨q, hq, hqe⟩
    by_cases h : q.1 = k
    · simp only [if_pos h] at hqe
      exact hqe ▸ hv
    · simp only [if_neg h] at hqe
      exact hqe ▸ hm q hq
  · rcases List.mem_append.mp hp with h | h
    · exact hm p h
    · rw [List.mem_singleton.mp h]
      exact hv

/-- JS `Map.set` on an absent key appends the new entry. -/
theorem mapSet_not_has {α : Type} (m : List (String × α)) (k : String) (v : α)
    (h : mapHas m k = false) : mapSet m k v = m ++ [(k, v)] := by
  simp [mapSet, h]

/-- Every entry of the day map keys itself by its day-number string and holds
the checked state the selection rule assigns to that day number. -/
theorem buildDaysMap_state (prevDays : Option (List String))
    (daysWithMetadata : List LineupDay) :
    ∀ p ∈ buildDaysMap prevDays daysWithMetadata,
      p.1 = toString p.2.obj.number ∧
      p.2.state = checkedStateStr prevDays (toString p.2.obj.number) := by
  unfold buildDaysMap
  refine foldl_preserve
    (fun m : List (String × StatefulObject LineupDay) =>
      ∀ p ∈ m, p.1 = toString p.2.obj.number ∧
        p.2.state = checkedStateStr prevDays (toString p.2.obj.number)) _ ?_ daysWithMetadata []
    (fun p hp => absurd hp (List.not_mem_nil p))
  intro m d hm
  exact mapSet_inv _ m _ _ hm ⟨rfl, rfl⟩

/-- The per-entry shape invariant of a genre map: each entry is keyed by its
genre and wraps that genre with the checked state the shared
previously-selected list assigns to it. -/
def genreEntryOk (prevGenres : Option (List String)) (p : String × StatefulObject String) :
    Prop :=
  p.2 = { state := checkedStateStr prevGenres p.1, obj := p.1 }

/-- The step `insertGenres` preserves the entry invariant of both maps. -/
theorem insertGenres_val (prevGenres : Option (List String)) (mainGenresList : List String)
    (maps : GenreMap × GenreMap) (g : String)
    (hb : (∀ p ∈ maps.1, genreEntryOk prevGenres p) ∧
          (∀ p ∈ maps.2, genreEntryOk prevGenres p)) :
    (∀ p ∈ (insertGenres prevGenres mainGenresList maps g).1, genreEntryOk prevGenres p) ∧
    (∀ p ∈ (insertGenres prevGenres mainGenresList maps g).2, genreEntryOk prevGenres p) := by
  unfold insertGenres
  split
  · split
    · exact ⟨mapSet_inv _ maps.1 _ _ hb.1 rfl, hb.2⟩
    · exact hb
  · split
    · exact ⟨hb.1, mapSet_inv _ maps.2 _ _ hb.2 rfl⟩
    · exact hb

/-- Appending a fresh key keeps an association list's keys duplicate-free. -/
theorem nodup_append_fresh {α : Type} (m : List (String × α)) (k : String) (v : α)
    (hnd : (m.map Prod.fst).Nodup) (hh : mapHas m k = false) :
    ((m ++ [(k, v)]).map Prod.fst).Nodup := by
  rw [List.map_append]
  refine List.Nodup.append hnd (List.nodup_singleton _) ?_
  intro x hx hx'
  simp only [List.map_cons, List.map_nil, List.mem_singleton] at hx'
  subst hx'
  have : mapHas m x = true := List.elem_iff.mpr hx
  rw [this] at hh
  cases hh

/-- The step `insertGenres` keeps the keys of both maps duplicate-free. -/
theorem insertGenres_nodup (prevGenres : Option (List String)) (mainGenresList : List String)
    (maps : GenreMap × GenreMap) (g : String)
    (hb : (maps.1.map Prod.fst).Nodup ∧ (maps.2.map Prod.fst).Nodup) :
    ((insertGenres prevGenres mainGenresList maps g).1.map Prod.fst).Nodup ∧
    ((insertGenres prevGenres mainGenresList maps g).2.map Prod.fst).Nodup := by
  unfold insertGenres
  split
  · split
    next hhas =>
      have hh : mapHas maps.1 g = false := by
        revert hhas
        cases mapHas maps.1 g <;> simp
      rw [mapSet_not_has _ _ _ hh]
      exact ⟨nodup_append_fresh maps.1 g _ hb.1 hh, hb.2⟩
    next _ => exact hb
  · split
    next hhas =>
      have hh : mapHas maps.2 g = false := by
        revert hhas
        cases mapHas maps.2 g <;> simp
      rw [mapSet_not_has _ _ _ hh]
      exact ⟨hb.1, nodup_append_fresh maps.2 g _ hb.2 hh⟩
    next _ => exact hb

/-- The key-membership effect of a single `insertGenres` step. -/
theorem insertGenres_mem (prevGenres : Option (List String)) (mainGenresList : List String)
    (maps : GenreMap × GenreMap) (g k : String) :
    (k ∈ (insertGenres prevGenres mainGenresList maps g).1.map Prod.fst ↔
      k ∈ maps.1.map Prod.fst ∨ (mainGenresList.contains g = true ∧ k = g)) ∧
    (k ∈ (insertGenres prevGenres mainGenresList maps g).2.map Prod.fst ↔
      k ∈ maps.2.map Prod.fst ∨ (mainGenresList.contains g = false ∧ k = g)) := by
  unfold insertGenres
  split
  next hmain =>
    split
    next hhas =>
      have hh : mapHas maps.1 g = false := by
        revert hhas
        cases mapHas maps.1 g <;> simp
      rw [mapSet_not_has _ _ _ hh]
      constructor
      · rw [List.map_append]
        constructor
        · intro h
          rcases List.mem_append.mp h with h | h
          · exact Or.inl h
          · simp only [List.map_cons, List.map_nil, List.mem_singleton] at h
            exact Or.inr ⟨hmain, h⟩
        · rintro (h | ⟨_, hk⟩)
          · exact List.mem_append.mpr (Or.inl h)
          · subst hk
            exact List.mem_append.mpr (Or.inr (by simp))
      · constructor
        · exact Or.inl
        · rintro (h | ⟨hc, _⟩)
          · exact h
          · rw [hmain] at hc
            cases hc
    next hhas =>
      have hh : mapHas maps.1 g = true := by
        revert hhas
        cases mapHas maps.1 g <;> simp
      constructor
      · constructor
        · exact Or.inl
        · rintro (h | ⟨_, hk⟩)
          · exact h
          · subst hk
            exact List.elem_iff.mp hh
      · constructor
        · exact Or.inl
        · rintro (h | ⟨hc, _⟩)
          · exact h
          · rw [hmain] at hc
            cases hc
  next hmain =>
    have hmain' : mainGenresList.contains g = false := by
      revert hmain
      cases mainGenresList.contains g <;> simp
    split
    next hhas =>
      have hh : mapHas maps.2 g = false := by
        revert hhas
        cases mapHas maps.2 g <;> simp
      rw [mapSet_not_has _ _ _ hh]
      constructor
      · constructor
        · exact Or.inl
        · rintro (h | ⟨hc, _⟩)
          · exact h
          · rw [hmain'] at hc
            cases hc
      · rw [List.map_append]
        constructor
        · intro h
          rcases List.mem_append.mp h with h | h
          · exact Or.inl h
          · simp only [List.map_cons, List.map_nil, List.mem_singleton] at h
            exact Or.inr ⟨hmain', h⟩
        · rintro (h | ⟨_, hk⟩)
          · exact List.mem_append.mpr (Or.inl h)
          · subst hk
            exact List.mem_append.mpr (Or.inr (by simp))
    next hhas =>
      have hh : mapHas maps.2 g = true := by
        revert hhas
        cases mapHas maps.2 g <;> simp
      constructor
      · constructor
        · exact Or.inl
        · rintro (h | ⟨hc, _⟩)
          · exact h
          · rw [hmain'] at hc
            cases hc
      · constructor
        · exact Or.inl
        · rintro (h | ⟨_, hk⟩)
          · exact h
          · subst hk
            exact List.elem_iff.mp hh

/-- Key membership after folding one artist's genre list. -/
theorem foldGenres_mem (prevGenres : Option (List String)) (mainGenresList : List String) :
    ∀ (gs : List String) (maps : GenreMap × GenreMap) (k : String),
      (k ∈ (gs.foldl (insertGenres prevGenres mainGenresList) maps).1.map Prod.fst ↔
        k ∈ maps.1.map Prod.fst ∨ (mainGenresList.contains k = true ∧ k ∈ gs)) ∧
      (k ∈ (gs.foldl (insertGenres prevGenres mainGenresList) maps).2.map Prod.fst ↔
        k ∈ maps.2.map Prod.fst ∨ (mainGenresList.contains k = false ∧ k ∈ gs)) := by
  intro gs
  induction gs with
  | nil => intro maps k; simp
  | cons g gs ih =>
    intro maps k
    rw [List.foldl_cons]
    constructor
    · rw [(ih (insertGenres prevGenres mainGenresList maps g) k).1,
          (insertGenres_mem prevGenres mainGenresList maps g k).1]
      constructor
      · rintro ((h | ⟨hc, hk⟩) | ⟨hc, hk⟩)
        · exact Or.inl h
        · subst hk
          exact Or.inr ⟨hc, List.mem_cons_self _ _⟩
        · exact Or.inr ⟨hc, List.mem_cons_of_mem _ hk⟩
      · rintro (h | ⟨hc, hk⟩)
        · exact Or.inl (Or.inl h)
        · rcases List.mem_cons.mp hk with hk | hk
          · subst hk
            exact Or.inl (Or.inr ⟨hc, rfl⟩)
          · exact Or.inr ⟨hc, hk⟩
    · rw [(ih (insertGenres prevGenres mainGenresList maps g) k).2,
          (insertGenres_mem prevGenres mainGenresList maps g k).2]
      constructor
      · rintro ((h | ⟨hc, hk⟩) | ⟨hc, hk⟩)
        · exact Or.inl h
        · subst hk
          exact Or.inr ⟨hc, List.mem_cons_self _ _⟩
        · exact Or.inr ⟨hc, List.mem_cons_of_mem _ hk⟩
      · rintro (h | ⟨hc, hk⟩)
        · exact Or.inl (Or.inl h)
        · rcases List.mem_cons.mp hk with hk | hk
          · subst hk
            exact Or.inl (Or.inr ⟨hc, rfl⟩)
          · exact Or.inr ⟨hc, hk⟩

/-- Key membership of the genre maps: a genre keys the main map exactly when
it is on the curated list and occurs in some artist's genre set, and the
specific map exactly when it is off the curated list and occurs. -/
theorem buildGenreMaps_mem (prevGenres : Option (List String)) (mainGenresList : List String)
    (artists : List SpotifyArtist) (k : String) :
    (k ∈ (buildGenreMaps prevGenres mainGenresList artists).1.map Prod.fst ↔
      mainGenresList.contains k = true ∧ ∃ a ∈ artists, k ∈ a.combined_genres) ∧
    (k ∈ (buildGenreMaps prevGenres mainGenresList artists).2.map Prod.fst ↔
      mainGenresList.contains k = false ∧ ∃ a ∈ artists, k ∈ a.combined_genres) := by
  have key : ∀ (arts : List SpotifyArtist) (maps : GenreMap × GenreMap),
      (k ∈ (arts.foldl (fun maps artist =>
          artist.combined_genres.foldl (insertGenres prevGenres mainGenresList) maps)
          maps).1.map Prod.fst ↔
        k ∈ maps.1.map Prod.fst ∨
          (mainGenresList.contains k = true ∧ ∃ a ∈ arts, k ∈ a.combined_genres)) ∧
      (k ∈ (arts.foldl (fun maps artist =>
          artist.combined_genres.foldl (insertGenres prevGenres mainGenresList) maps)
          maps).2.map Prod.fst ↔
        k ∈ maps.2.map Prod.fst ∨
          (mainGenresList.contains k = false ∧ ∃ a ∈ arts, k ∈ a.combined_genres)) := by
    intro arts
    induction arts with
    | nil => intro maps; simp
    | cons a arts ih =>
      intro maps
      rw [List.foldl_cons]
      constructor
      · rw [(ih _).1, (foldGenres_mem prevGenres mainGenresList a.combined_genres maps k).1]
        constructor
        · rintro ((h | ⟨hc, hk⟩) | ⟨hc, a', ha', hk⟩)
          · exact Or.inl h
          · exact Or.inr ⟨hc, a, List.mem_cons_self _ _, hk⟩
          · exact Or.inr ⟨hc, a', List.mem_cons_of_mem _ ha', hk⟩
        · rintro (h | ⟨hc, a', ha', hk⟩)
          · exact Or.inl (Or.inl h)
          · rcases List.mem_cons.mp ha' with ha' | ha'
            · subst ha'
              exact Or.inl (Or.inr ⟨hc, hk⟩)
            · exact Or.inr ⟨hc, a', ha', hk⟩
      · rw [(ih _).2, (foldGenres_mem prevGenres mainGenresList a.combined_genres maps k).2]
        constructor
        · rintro ((h | ⟨hc, hk⟩) | ⟨hc, a', ha', hk⟩)
          · exact Or.inl h
          · exact Or.inr ⟨hc, a, List.mem_cons_self _ _, hk⟩
          · exact Or.inr ⟨hc, a', List.mem_cons_of_mem _ ha', hk⟩
        · rintro (h | ⟨hc, a', ha', hk⟩)
          · exact Or.inl (Or.inl h)
          · rcases List.mem_cons.mp ha' with ha' | ha'
            · subst ha'
              exact Or.inl (Or.inr ⟨hc, hk⟩)
            · exact Or.inr ⟨hc, a', ha', hk⟩
  have h := key artists ([], [])
  simpa [buildGenreMaps] using h

/-- Every entry of either genre map satisfies the entry invariant. -/
theorem buildGenreMaps_val (prevGenres : Option (List String)) (mainGenresList : List String)
    (artists : List SpotifyArtist) :
    (∀ p ∈ (buildGenreMaps prevGenres mainGenresList artists).1, genreEntryOk prevGenres p) ∧
    (∀ p ∈ (buildGenreMaps prevGenres mainGenresList artists).2, genreEntryOk prevGenres p) := by
  unfold buildGenreMaps
  refine foldl_preserve
    (fun maps : GenreMap × GenreMap =>
      (∀ p ∈ maps.1, genreEntryOk prevGenres p) ∧ (∀ p ∈ maps.2, genreEntryOk prevGenres p))
    _ ?_ artists ([], [])
    ⟨fun p hp => absurd hp (List.not_mem_nil p), fun p hp => absurd hp (List.not_mem_nil p)⟩
  intro maps artist hmaps
  refine foldl_preserve
    (fun maps : GenreMap × GenreMap =>
      (∀ p ∈ maps.1, genreEntryOk prevGenres p) ∧ (∀ p ∈ maps.2, genreEntryOk prevGenres p))
    (insertGenres prevGenres mainGenresList) ?_ artist.combined_genres maps hmaps
  intro b g hb
  exact insertGenres_val prevGenres mainGenresList b g hb

/-- The keys of both genre maps are duplicate-free. -/
theorem buildGenreMaps_nodup (prevGenres : Option (List String))
    (mainGenresList : List String) (artists : List SpotifyArtist) :
    ((buildGenreMaps prevGenres mainGenresList artists).1.map Prod.fst).Nodup ∧
    ((buildGenreMaps prevGenres mainGenresList artists).2.map Prod.fst).Nodup := by
  unfold buildGenreMaps
  refine foldl_preserve
    (fun maps : GenreMap × GenreMap =>
      (maps.1.map Prod.fst).Nodup ∧ (maps.2.map Prod.fst).Nodup)
    _ ?_ artists ([], []) ⟨List.nodup_nil, List.nodup_nil⟩
  intro maps artist hmaps
  refine foldl_preserve
    (fun maps : GenreMap × GenreMap =>
      (maps.1.map Prod.fst).Nodup ∧ (maps.2.map Prod.fst).Nodup)
    (insertGenres prevGenres mainGenresList) ?_ artist.combined_genres maps hmaps
  intro b g hb
  exact insertGenres_nodup prevGenres mainGenresList b g hb

/-- C1: on the customize page, in every dimension (days, artists, main
genres, specific genres): with a null previously-selected list every rendered
item is "checked"; with a present list (even empty) an item is "checked"
exactly when its identifier (day number string, artist id, genre string) is
in the list, and is "" otherwise. -/
theorem c1_customize_selection_rule (prevArtists prevGenres prevDays : Option (List String))
    (mainGenresList : List String) (artists : List SpotifyArtist)
    (daysWithMetadata : List LineupDay) :
    (∀ p ∈ buildDaysMap prevDays daysWithMetadata,
      p.2.state = match prevDays with
        | none => "checked"
        | some sel => if sel.contains (toString p.2.obj.number) then "checked" else "") ∧
    (∀ a ∈ applyArtistChecked prevArtists artists,
      a.checkedStr = match prevArtists with
        | none => "checked"
        | some sel => if sel.contains a.id then "checked" else "") ∧
    (∀ p ∈ (buildGenreMaps prevGenres mainGenresList artists).1,
      p.2.state = match prevGenres with
        | none => "checked"
        | some sel => if sel.contains p.2.obj then "checked" else "") ∧
    (∀ p ∈ (buildGenreMaps prevGenres mainGenresList artists).2,
      p.2.state = match prevGenres with
        | none => "checked"
        | some sel => if sel.contains p.2.obj then "checked" else "") := by
  refine ⟨?_, ?_, ?_, ?_⟩
  · intro p hp
    exact (buildDaysMap_state prevDays daysWithMetadata p hp).2
  · intro a ha
    rcases List.mem_map.mp ha with ⟨a₀, _, rfl⟩
    rfl
  · intro p hp
    have h := (buildGenreMaps_val prevGenres mainGenresList artists).1 p hp
    unfold genreEntryOk at h
    rw [h]
    rfl
  · intro p hp
    have h := (buildGenreMaps_val prevGenres mainGenresList artists).2 p hp
    unfold genreEntryOk at h
    rw [h]
    rfl

/-- Witness for C1: with previously-selected days ["1"] day 2 renders
unchecked, with a null previously-selected artist list the artist renders
checked, and with previously-selected genres ["rock"] the specific genre
"stoner rock" renders unchecked. -/
theorem c1_customize_selection_rule_witness :
    ({ sampleArtist with checkedStr := "checked" }).checkedStr = "checked" ∧
    ((⟨"", "stoner rock"⟩ : StatefulObject String)).state =
      (if (["rock"].contains "stoner rock") then "checked" else "") ∧
    ((⟨"", ⟨2, "Day 2"⟩⟩ : StatefulObject LineupDay)).state =
      (if (["1"].contains (toString (2 : Int))) then "checked" else "") := by
  have h := c1_customize_selection_rule none (some ["rock"]) (some ["1"]) ["rock"]
    [sampleArtist] [⟨1, "Day 1"⟩, ⟨2, "Day 2"⟩]
  refine ⟨?_, ?_, ?_⟩
  · exact h.2.1 { sampleArtist with checkedStr := "checked" } (by decide)
  · exact h.2.2.2 ("stoner rock", ⟨"", "stoner rock"⟩) (by decide)
  · exact h.1 ("2", ⟨"", ⟨2, "Day 2"⟩⟩) (by decide)

/-- C4: a genre occurring in several artists' genre sets has exactly one
entry in its merged map (main map iff it is on the curated list, specific map
otherwise); its entry always wraps the state computed from the shared
previously-selected-genres list, so the state fixed at first insertion is
never changed by later occurrences. -/
theorem c4_genre_dedup_first_occurrence (prevGenres : Option (List String))
    (mainGenresList : List String) (artists : List SpotifyArtist) (g : String) :
    ((buildGenreMaps prevGenres mainGenresList artists).1.map Prod.fst).count g ≤ 1 ∧
    ((buildGenreMaps prevGenres mainGenresList artists).2.map Prod.fst).count g ≤ 1 ∧
    (g ∈ (buildGenreMaps prevGenres mainGenresList artists).1.map Prod.fst ↔
      mainGenresList.contains g = true ∧ ∃ a ∈ artists, g ∈ a.combined_genres) ∧
    (g ∈ (buildGenreMaps prevGenres mainGenresList artists).2.map Prod.fst ↔
      mainGenresList.contains g = false ∧ ∃ a ∈ artists, g ∈ a.combined_genres) ∧
    (∀ so, (g, so) ∈ (buildGenreMaps prevGenres mainGenresList artists).1 →
      so = { state := checkedStateStr prevGenres g, obj := g }) ∧
    (∀ so, (g, so) ∈ (buildGenreMaps prevGenres mainGenresList artists).2 →
      so = { state := checkedStateStr prevGenres g, obj := g }) := by
  refine ⟨?_, ?_, (buildGenreMaps_mem prevGenres mainGenresList artists g).1,
    (buildGenreMaps_mem prevGenres mainGenresList artists g).2, ?_, ?_⟩
  · exact List.nodup_iff_count_le_one.mp
      (buildGenreMaps_nodup prevGenres mainGenresList artists).1 g
  · exact List.nodup_iff_count_le_one.mp
      (buildGenreMaps_nodup prevGenres mainGenresList artists).2 g
  · intro so hso
    exact (buildGenreMaps_val prevGenres mainGenresList artists).1 (g, so) hso
  · intro so hso
    exact (buildGenreMaps_val prevGenres mainGenresList artists).2 (g, so) hso

/-- Witness for C4: two artists sharing "rock": one main-map entry, counted
once, whose state is the one the (empty, hence all-unchecked) selection list
assigns. -/
theorem c4_genre_dedup_first_occurrence_witness :
    ((buildGenreMaps (some []) ["rock"]
        [sampleArtist, { sampleArtist with id := "a2", combined_genres := ["rock"] }]).1.map
        Prod.fst).count "rock" ≤ 1 ∧
    (⟨"", "rock"⟩ : StatefulObject String) =
      { state := checkedStateStr (some []) "rock", obj := "rock" } := by
  have h := c4_genre_dedup_first_occurrence (some []) ["rock"]
    [sampleArtist, { sampleArtist with id := "a2", combined_genres := ["rock"] }] "rock"
  exact ⟨h.1, h.2.2.2.2.1 ⟨"", "rock"⟩ (by decide)⟩

/-! ## Order facts for the home-page sort -/

theorem localeCompare_eq_gt (a b : String) : localeCompare a b = Ordering.gt ↔ b < a := by
  unfold localeCompare
  split_ifs with h1 h2
  · exact iff_of_false (by simp) (fun h => absurd h1 (lt_asymm h))
  · exact iff_of_false (by simp) (fun h => absurd (h2 ▸ h) (lt_irrefl b))
  · exact iff_of_true rfl ((lt_or_gt_of_ne (fun he => h2 he)).resolve_left h1)

/-- The lexicographic characterisation of a strictly-greater comparator
result: the right festival precedes the left one by region, or by name
within the same region. -/
theorem festivalCompare_eq_gt (x y : Festival) :
    festivalCompare x y = Ordering.gt ↔
      y.region < x.region ∨ (x.region = y.region ∧ y.name < x.name) := by
  unfold festivalCompare
  rcases h : localeCompare x.region y.region with _ | _ | _
  · have hlt : x.region < y.region := by
      revert h
      unfold localeCompare
      split_ifs with h1 h2 <;> intro hh
      · exact h1
      · cases hh
      · cases hh
    refine iff_of_false (by simp) ?_
    rintro (h' | ⟨h', _⟩)
    · exact absurd h' (lt_asymm hlt)
    · exact absurd (h' ▸ hlt) (lt_irrefl _)
  · have heq : x.region = y.region := by
      revert h
      unfold localeCompare
      split_ifs with h1 h2 <;> intro hh
      · cases hh
      · exact h2
      · cases hh
    rw [localeCompare_eq_gt]
    constructor
    · intro h'
      exact Or.inr ⟨heq, h'⟩
    · rintro (h' | ⟨_, h'⟩)
      · exact absurd (heq ▸ h') (lt_irrefl _)
      · exact h'
  · exact iff_of_true rfl (Or.inl ((localeCompare_eq_gt _ _).mp h))

/-- The relation `festivalSortLe` is the negation of the strictly-greater lexicographic
relation. -/
theorem festivalSortLe_iff (x y : Festival) :
    festivalSortLe x y = true ↔
      ¬(y.region < x.region ∨ (x.region = y.region ∧ y.name < x.name)) := by
  unfold festivalSortLe
  rw [← festivalCompare_eq_gt]
  cases festivalCompare x y <;> decide

theorem festivalSortLe_trans (a b c : Festival) (h1 : festivalSortLe a b = true)
    (h2 : festivalSortLe b c = true) : festivalSortLe a c = true := by
  rw [festivalSortLe_iff] at h1 h2 ⊢
  push_neg at h1 h2 ⊢
  obtain ⟨h1r, h1n⟩ := h1
  obtain ⟨h2r, h2n⟩ := h2
  constructor
  · exact le_trans h1r h2r
  · intro hac
    have h2r' : b.region ≤ a.region := by
      rw [hac]
      exact h2r
    have hab : a.region = b.region := le_antisymm h1r h2r'
    have hbc : b.region = c.region := by
      rw [← hab]
      exact hac
    exact le_trans (h1n hab) (h2n hbc)

theorem festivalSortLe_total (a b : Festival) :
    (festivalSortLe a b || festivalSortLe b a) = true := by
  rcases hab : festivalSortLe a b with _ | _
  · have hgt : festivalCompare a b = Ordering.gt := by
      revert hab
      unfold festivalSortLe
      cases festivalCompare a b <;> decide
    rw [festivalCompare_eq_gt] at hgt
    have hba : festivalSortLe b a = true := by
      rw [festivalSortLe_iff]
      rintro (h | ⟨he, hn⟩)
      · rcases hgt with h' | ⟨he', _⟩
        · exact absurd h (lt_asymm h')
        · exact absurd (he' ▸ h) (lt_irrefl _)
      · rcases hgt with h' | ⟨_, hn'⟩
        · exact absurd (he ▸ h') (lt_irrefl _)
        · exact absurd hn (lt_asymm hn')
    simp [hba]
  · simp

/-- A non-empty string strictly follows the empty string. -/
theorem empty_string_lt (s : String) (h : s ≠ "") : "" < s := by
  rw [String.lt_iff_toList_lt]
  cases hs : s.toList with
  | nil => exact absurd (Eq.symm (String.ext (Eq.symm hs))) h
  | cons c cs => exact List.nil_lt_cons c cs

/-- The separator rows are exactly one per declared region that some catalog
festival inhabits, in declaration order. -/
theorem separators_regions_eq (fests : List Festival) (regions : List Region) :
    (separators fests regions).map (fun s => s.region) =
      (regions.filter (fun r => (fests.map (fun f => f.region)).contains r.name)).map
        (fun r => r.name) := by
  induction regions with
  | nil => rfl
  | cons r rs ih =>
    unfold separators at ih ⊢
    rw [List.filterMap_cons, List.filter_cons]
    rcases h : (fests.map (fun f => f.region)).contains r.name with _ | _
    · rw [h, if_neg Bool.false_ne_true, if_neg Bool.false_ne_true]
      exact ih
    · rw [h, if_pos rfl, if_pos rfl]
      exact congrArg (fun l => r.name :: l) ih

/-- C6: the dropdown list is a permutation of the catalog entries plus one
synthetic empty-name, empty-years entry per declared region that has at least
one edition; it is sorted by region then name under the comparator, and
within any region the empty separator name comes before every non-empty
festival name. -/
theorem c6_dropdown_order (fests : List Festival) (regions : List Region) :
    (sortedFestivals fests regions).Perm (fests ++ separators fests regions) ∧
    (sortedFestivals fests regions).Pairwise (fun x y => festivalSortLe x y = true) ∧
    (∀ sep ∈ separators fests regions, sep.name = "" ∧ sep.years = []) ∧
    ((separators fests regions).map (fun s => s.region) =
      (regions.filter (fun r => (fests.map (fun f => f.region)).contains r.name)).map
        (fun r => r.name)) ∧
    ((regions.map (fun r => r.name)).Nodup →
      ((separators fests regions).map (fun s => s.region)).Nodup) ∧
    (sortedFestivals fests regions).Pairwise
      (fun x y => x.region = y.region → x.name ≠ "" → y.name ≠ "") := by
  refine ⟨List.mergeSort_perm _ _,
    List.sorted_mergeSort festivalSortLe_trans festivalSortLe_total _, ?_, ?_, ?_, ?_⟩
  · intro sep hsep
    rcases List.mem_filterMap.mp hsep with ⟨r, _, hf⟩
    split at hf
    · cases hf
      exact ⟨rfl, rfl⟩
    · cases hf
  · exact separators_regions_eq fests regions
  · intro hnd
    rw [separators_regions_eq fests regions]
    exact ((List.filter_sublist regions).map (fun r => r.name)).nodup hnd
  · refine List.Pairwise.imp ?_
      (List.sorted_mergeSort festivalSortLe_trans festivalSortLe_total
        (fests ++ separators fests regions))
    intro x y h hre hxn hyn
    rw [festivalSortLe_iff] at h
    exact h (Or.inr ⟨hre, hyn ▸ empty_string_lt x.name hxn⟩)

/-- Witness for C6: for a one-festival catalog and its declared region, the
separator regions are duplicate-free. -/
theorem c6_dropdown_order_witness :
    ((separators [sampleFestival] [⟨"US", "United States"⟩]).map
      (fun s => s.region)).Nodup :=
  (c6_dropdown_order [sampleFestival] [⟨"US", "United States"⟩]).2.2.2.2.1 (by decide)

end LineupList
